import Mathlib

/-!
Verification development for the notecal Nutrition Resolution Engine.

The definitions below are a shallow embedding of the repository's
TypeScript sources:
* `supabase/functions/nutrition-resolve` exists in two versions in the
  repository: a multi-provider one (openai / gemini / claude, called V1
  below) and a gemini-only one with an enhanced confidence scorer and
  fallback estimator (called V2 below).  Both share the same `serve`
  request handler body, embedded once as `serveGen` and instantiated
  twice.
* the client-side `nutritionApi.ts` (`resolveNutrition`, `checkUserQuota`)
  and the client `FoodInput` quantity parser (`parseQuantity`).

JavaScript numbers are idealized as rationals (ℚ), timestamps as natural
numbers (milliseconds), and the backing Supabase store as an explicit list
of rows threaded through the handler.  Provider HTTP interactions are
modelled by a `ProviderEnv` record holding, for each provider, the
configured credential, the HTTP success flag and the parsed payload that
the real code would have extracted from the provider response.
-/

/-- The four-field nutrient vector, per the `Macros` shape in the source. -/
structure Macros where
  kcal : ℚ
  protein : ℚ
  fat : ℚ
  carbs : ℚ
deriving DecidableEq, Repr

/-- One extracted food item (`FoodItem` interface in the edge functions). -/
structure FoodItem where
  label : String
  qty : ℚ
  unit : String
  confidence : ℚ
  macros : Macros
deriving DecidableEq, Repr

/-- `NutritionData` interface: items plus totals (optional token count). -/
structure NutritionData where
  items : List FoodItem
  totals : Macros
  tokens : Option ℕ := none
deriving DecidableEq, Repr

/-- A row of the `nutrition_cache` table. -/
structure CacheRow where
  id : ℕ
  food_query : String
  normalized_query : String
  nutrition_data : NutritionData
  confidence_score : ℚ
  ai_provider : String
  hit_count : ℕ
  expires_at : ℕ
deriving DecidableEq, Repr

/-- A row of the `api_usage` table, as inserted by `logApiUsage`. -/
structure UsageRecord where
  user_id : String
  ai_provider : String
  tokens_used : ℕ
  cost_cents : ℤ
  request_type : String
  status : String
  error_message : Option String
  response_time_ms : ℕ
deriving DecidableEq, Repr

/-- The JSON body of a request to the edge function. -/
structure NutritionRequest where
  foodText : String
  userId : Option String
  aiProvider : Option String
deriving DecidableEq, Repr

/-- The HTTP response produced by the edge function
(`ApiResponse` plus the HTTP status code). -/
structure ApiResponse where
  status : ℕ
  data : Option NutritionData
  error : Option String
deriving DecidableEq, Repr

/-- Result of one `serve` invocation: the response, the cache table after
the request, and the usage records appended during the request. -/
structure ServeResult where
  response : ApiResponse
  cache : List CacheRow
  logs : List UsageRecord
deriving DecidableEq, Repr

/-- Provider-side environment: per provider the configured API key, the
HTTP success flag with its status text, and the payload the provider
response would parse to (`none` models an unparseable payload).  For
openai and claude it also carries the token usage reported in the
response envelope; the gemini envelope handling in the source never
extracts a token count, so no such field exists for gemini. -/
structure ProviderEnv where
  openaiKey : Option String
  geminiKey : Option String
  claudeKey : Option String
  openaiOk : Bool
  geminiOk : Bool
  claudeOk : Bool
  openaiStatusText : String
  geminiStatusText : String
  claudeStatusText : String
  openaiContent : Option NutritionData
  geminiJson : Option NutritionData
  claudeContent : Option NutritionData
  openaiTokens : Option ℕ
  claudeUsage : Option (ℕ × ℕ)
deriving Repr

/-- JS `\d` character class. -/
def jsDigit (c : Char) : Bool := c.isDigit

/-- JS `\s` character class (common whitespace). -/
def jsSpace (c : Char) : Bool := c.isWhitespace

/-- JS `[a-z]` character class. -/
def jsLower (c : Char) : Bool := 'a' ≤ c && c ≤ 'z'

/-- JS `.` (dot) character class: any character except a line terminator. -/
def jsDot (c : Char) : Bool := !(c == '\n' || c == '\r')

/-- JS `String.prototype.trim`: strip whitespace from both ends. -/
def jsTrim (s : String) : String :=
  String.mk (((s.data.dropWhile jsSpace).reverse.dropWhile jsSpace).reverse)

/-- JS `String.prototype.toLowerCase` (ASCII case folding). -/
def jsToLower (s : String) : String := String.mk (s.data.map Char.toLower)

/-- JS `split` at newline characters, on the character list of a string. -/
def splitLines : List Char → List (List Char)
  | [] => [[]]
  | c :: t =>
    if c == '\n' then [] :: splitLines t
    else
      match splitLines t with
      | [] => [[c]]
      | h :: r => (c :: h) :: r

/-- Normalized cache key: `foodText.toLowerCase().trim()`. -/
def normKey (s : String) : String := jsTrim (jsToLower s)

/-- 7 days in milliseconds: the fixed cache TTL
(`expiresAt.setDate(expiresAt.getDate() + 7)`). -/
def sevenDaysMs : ℕ := 7 * 24 * 60 * 60 * 1000

/-- Cache lookup: `.eq('food_query', key).gte('expires_at', now).single()`.
Returns a row only when its key matches and it has not expired. -/
def cacheLookup (st : List CacheRow) (key : String) (now : ℕ) : Option CacheRow :=
  st.find? (fun r => r.food_query == key && decide (now ≤ r.expires_at))

/-- Fresh primary key for an inserted cache row. -/
def freshId (st : List CacheRow) : ℕ :=
  st.foldl (fun m r => max m r.id) 0 + 1

/-- `upsert(..., { onConflict: 'food_query' })`: replaces the whole row for
the key when one exists (keeping its primary key), otherwise inserts. -/
def cacheUpsert (st : List CacheRow) (row : CacheRow) : List CacheRow :=
  if st.any (fun r => r.food_query == row.food_query) then
    st.map (fun r => if r.food_query == row.food_query then { row with id := r.id } else r)
  else
    st ++ [{ row with id := freshId st }]

/-- The usage record inserted by `logApiUsage` (request_type is always
`nutrition`; response time is 0 in this timeless model). -/
def mkUsage (u provider : String) (tokens : ℕ) (cost : ℤ) (status : String)
    (err : Option String) : UsageRecord :=
  ⟨u, provider, tokens, cost, "nutrition", status, err, 0⟩

/-- `serve` logs usage only when a `userId` is present. -/
def logsFor (userId : Option String) (provider : String) (tokens : ℕ) (cost : ℤ)
    (status : String) (err : Option String) : List UsageRecord :=
  match userId with
  | some u => [mkUsage u provider tokens cost status err]
  | none => []

/-- Element-wise summation of item macros into totals, as the
`items.reduce` in both `generateFallbackResponse` versions. -/
def sumTotals (items : List FoodItem) : Macros :=
  items.foldl
    (fun acc it =>
      ⟨acc.kcal + it.macros.kcal, acc.protein + it.macros.protein,
       acc.fat + it.macros.fat, acc.carbs + it.macros.carbs⟩)
    ⟨0, 0, 0, 0⟩

/-- Element-wise sum of `items[].macros`, stated field by field as in the
spec's consistency law (for comparison with the code's `reduce`). -/
def elementwiseSum (items : List FoodItem) : Macros :=
  ⟨(items.map (fun it => it.macros.kcal)).sum,
   (items.map (fun it => it.macros.protein)).sum,
   (items.map (fun it => it.macros.fat)).sum,
   (items.map (fun it => it.macros.carbs)).sum⟩

/-- `Math.round(x * 100) / 100`: round to 2 decimal places. -/
def round2 (x : ℚ) : ℚ := (round (x * 100) : ℚ) / 100

/-- `callOpenAI`: fails on missing key, non-ok HTTP status, or unparseable
payload; on success returns the parsed data plus `usage?.total_tokens`. -/
def callOpenAI (foodText : String) (env : ProviderEnv) :
    Except String (NutritionData × Option ℕ) :=
  match env.openaiKey with
  | none => .error "OpenAI API key not configured"
  | some _ =>
    if !env.openaiOk then .error ("OpenAI API error: " ++ env.openaiStatusText)
    else
      match env.openaiContent with
      | none => .error "Failed to parse OpenAI response"
      | some d => .ok (d, env.openaiTokens)

/-- `callGemini` (identical response handling in both edge-function
versions): fails on missing key, non-ok status, or when no JSON block can
be extracted and parsed; on success it returns `{ data: nutritionData }`
with NO token count. -/
def callGemini (foodText : String) (env : ProviderEnv) :
    Except String (NutritionData × Option ℕ) :=
  match env.geminiKey with
  | none => .error "Gemini API key not configured"
  | some _ =>
    if !env.geminiOk then .error ("Gemini API error: " ++ env.geminiStatusText)
    else
      match env.geminiJson with
      | none => .error "Failed to parse Gemini response"
      | some d => .ok (d, none)

/-- `callClaude`: on success returns the parsed data plus
`usage?.input_tokens + usage?.output_tokens` (absent usage yields NaN in
JS which the caller's `|| 0` collapses to 0, modelled as `none`). -/
def callClaude (foodText : String) (env : ProviderEnv) :
    Except String (NutritionData × Option ℕ) :=
  match env.claudeKey with
  | none => .error "Claude API key not configured"
  | some _ =>
    if !env.claudeOk then .error ("Claude API error: " ++ env.claudeStatusText)
    else
      match env.claudeContent with
      | none => .error "Failed to parse Claude response"
      | some d => .ok (d, env.claudeUsage.map (fun p => p.1 + p.2))

/-- Multi-provider `callAIService` (V1): string-tag dispatch with an
`Unsupported AI provider` error for unknown tags. -/
def callAIServiceV1 (foodText provider : String) (env : ProviderEnv) :
    Except String (NutritionData × Option ℕ) :=
  if provider = "openai" then callOpenAI foodText env
  else if provider = "gemini" then callGemini foodText env
  else if provider = "claude" then callClaude foodText env
  else .error ("Unsupported AI provider: " ++ provider)

/-- Gemini-only `callAIService` (V2): always routes to gemini. -/
def callAIServiceV2 (foodText provider : String) (env : ProviderEnv) :
    Except String (NutritionData × Option ℕ) :=
  callGemini foodText env

/-- V1 per-provider rate table (`costs` object, dollars per 1M tokens). -/
def costTableV1 (provider : String) : Option ℚ :=
  if provider = "openai" then some 0.5
  else if provider = "gemini" then some 0.25
  else if provider = "claude" then some 0.3
  else none

/-- V1 `calculateCost`: `Math.ceil(tokens / 1000000 * costPerMillion * 100)`
with `costs[provider] || 0.5`. -/
def calculateCostV1 (tokens : ℕ) (provider : String) : ℤ :=
  Int.ceil ((tokens : ℚ) / 1000000 * ((costTableV1 provider).getD 0.5) * 100)

/-- V2 rate table: gemini only. -/
def costTableV2 (provider : String) : Option ℚ :=
  if provider = "gemini" then some 0.25 else none

/-- V2 `calculateCost` with `costs[provider] || 0.25`. -/
def calculateCostV2 (tokens : ℕ) (provider : String) : ℤ :=
  Int.ceil ((tokens : ℚ) / 1000000 * ((costTableV2 provider).getD 0.25) * 100)

/-- V1 `calculateConfidenceScore`: plain arithmetic mean of item
confidences rounded to 2 decimals (no quality adjustments). -/
def calculateConfidenceScoreV1 (d : NutritionData) : ℚ :=
  if d.items.isEmpty then 0
  else
    let avgConfidence := (d.items.map (fun it => it.confidence)).sum / (d.items.length : ℚ)
    round2 avgConfidence

/-- V2 `calculateConfidenceScore`: mean of item confidences with the
quality multipliers (0.8 for kcal over 2000, 1.1 for all-positive macros,
0.9 for uniform confidences that average exactly 0.8), the result rounded
to 2 decimals and capped at 1.0 (`Math.min(1.0, Math.round(... * 100) / 100)`).
`hasVaryingConfidence` models `new Set(confidences).size > 1`. -/
def calculateConfidenceScoreV2 (d : NutritionData) : ℚ :=
  if d.items.isEmpty then 0
  else
    let avgConfidence := (d.items.map (fun it => it.confidence)).sum / (d.items.length : ℚ)
    let q1 : ℚ := 1
    let q2 := if 2000 < d.totals.kcal then q1 * 0.8 else q1
    let q3 := if 0 < d.totals.protein ∧ 0 < d.totals.fat ∧ 0 < d.totals.carbs
              then q2 * 1.1 else q2
    let confidences := d.items.map (fun it => it.confidence)
    let hasVaryingConfidence := 1 < confidences.dedup.length
    let q4 := if ¬hasVaryingConfidence ∧ avgConfidence = 0.8 then q3 * 0.9 else q3
    min 1 (round2 (avgConfidence * q4))

/-- The confidence-score computation exactly as claim C5 words it: base =
arithmetic mean; multiply by 0.8 when totals.kcal exceeds 2000; by 1.1
when protein, fat and carbs are all strictly positive; by 0.9 when every
item's confidence is identical and that shared value is exactly 0.8; then
clamp to a maximum of 1.0 and round to 2 decimal places. -/
def claimConfidenceScore (d : NutritionData) : ℚ :=
  match d.items with
  | [] => 0
  | it :: rest =>
    let base := ((it :: rest).map (fun i => i.confidence)).sum / ((it :: rest).length : ℚ)
    let s1 := if 2000 < d.totals.kcal then base * 0.8 else base
    let s2 := if 0 < d.totals.protein ∧ 0 < d.totals.fat ∧ 0 < d.totals.carbs
              then s1 * 1.1 else s1
    let s3 := if (∀ j ∈ rest, j.confidence = it.confidence) ∧ it.confidence = 0.8
              then s2 * 0.9 else s2
    round2 (min 1 s3)

/-- The plain rounded arithmetic mean of the item confidences (0 for an
empty item list): what the amended claim states the legacy multi-provider
scorer computes — no quality multipliers and no clamp. -/
def plainMeanScore (d : NutritionData) : ℚ :=
  match d.items with
  | [] => 0
  | it :: rest =>
    round2 (((it :: rest).map (fun i => i.confidence)).sum / ((it :: rest).length : ℚ))

/-- V1 `generateFallbackResponse`: one item per non-blank line, fixed
100 g quantity, 0.3 confidence, index-scaled rough macros. -/
def generateFallbackResponseV1 (foodText : String) : NutritionData :=
  let lines := ((splitLines foodText.data).map (fun l => String.mk l)).filter
    (fun l => jsTrim l != "")
  let items := lines.enum.map (fun p =>
    ({ label := jsTrim p.2, qty := 100, unit := "g", confidence := 0.3,
       macros :=
         { kcal := 100 + (p.1 : ℚ) * 20, protein := 10 + (p.1 : ℚ) * 2,
           fat := 3 + (p.1 : ℚ) * 1, carbs := 15 + (p.1 : ℚ) * 3 } } : FoodItem))
  { items := items, totals := sumTotals items }

/-- `[n, n-1, ..., 0]`: the order in which a greedy zero-or-more regex
piece hands back characters while backtracking. -/
def descFrom (n : ℕ) : List ℕ := (List.range (n + 1)).reverse

/-- `[n, n-1, ..., 1]`: backtracking order for a greedy one-or-more piece. -/
def descPos (n : ℕ) : List ℕ := (List.range n).reverse.map (fun k => k + 1)

/-- `parseInt` on a string of decimal digits. -/
def parseIntDigits (l : List Char) : ℕ :=
  l.foldl (fun acc c => 10 * acc + (c.toNat - '0'.toNat)) 0

/-- Result of matching the V2 quantity regex
`/(\d+)\s*([a-z]*)\s*(.+)|(.+)\s*(\d+)\s*([a-z]*)/` at some position:
either the leading-number alternative (captured digits, unit letters and
remaining name) or the trailing-number alternative (captured name and
digits). -/
inductive QtyMatch where
  | lead (digits unitChars rest : List Char)
  | trail (name digits : List Char)
deriving DecidableEq, Repr

/-- First (leading-number) alternative `(\d+)\s*([a-z]*)\s*(.+)` matched
at the start of `l`, with the standard greedy backtracking order. -/
def alt1Match (l : List Char) : Option QtyMatch :=
  (descPos (l.takeWhile jsDigit).length).findSome? (fun k =>
    let r1 := l.drop k
    (descFrom (r1.takeWhile jsSpace).length).findSome? (fun m1 =>
      let r2 := r1.drop m1
      (descFrom (r2.takeWhile jsLower).length).findSome? (fun lv =>
        let r3 := r2.drop lv
        (descFrom (r3.takeWhile jsSpace).length).findSome? (fun m2 =>
          let rest := (r3.drop m2).takeWhile jsDot
          if rest.isEmpty then none
          else some (QtyMatch.lead (l.take k) (r2.take lv) rest)))))

/-- Second (trailing-number) alternative `(.+)\s*(\d+)\s*([a-z]*)` matched
at the start of `l` (the final `([a-z]*)` capture is unused by the code). -/
def alt2Match (l : List Char) : Option QtyMatch :=
  (descPos (l.takeWhile jsDot).length).findSome? (fun k =>
    let r1 := l.drop k
    (descFrom (r1.takeWhile jsSpace).length).findSome? (fun m1 =>
      let ds := (r1.drop m1).takeWhile jsDigit
      if ds.isEmpty then none
      else some (QtyMatch.trail (l.take k) ds)))

/-- `foodLine.match(/(\d+)\s*([a-z]*)\s*(.+)|(.+)\s*(\d+)\s*([a-z]*)/)`:
leftmost match position wins, and at a given position the first
alternative is preferred. -/
def matchQty (l : List Char) : Option QtyMatch :=
  (List.range (l.length + 1)).findSome? (fun i =>
    let suf := l.drop i
    match alt1Match suf with
    | some g => some g
    | none => alt2Match suf)

/-- The V2 per-line quantity extraction: `qty`/`foodName` from the regex
match when there is one (group 1/group 3 for the leading alternative,
group 5/group 4 for the trailing one), else the 100 g default with the
whole line as name. -/
def parseQtyV2 (foodLine : String) : ℕ × String :=
  match matchQty foodLine.data with
  | some (.lead ds _u rest) => (parseIntDigits ds, String.mk rest)
  | some (.trail name ds) => (parseIntDigits ds, String.mk name)
  | none => (100, foodLine)

/-- The V2 per-100g reference table, in object-key order. -/
def nutritionDatabase : List (String × Macros) :=
  [("chicken", ⟨165, 31, 3.6, 0⟩),
   ("beef", ⟨250, 26, 15, 0⟩),
   ("rice", ⟨130, 2.7, 0.3, 28⟩),
   ("pasta", ⟨131, 5, 1.1, 25⟩),
   ("bread", ⟨265, 9, 3.2, 49⟩),
   ("egg", ⟨155, 13, 11, 1.1⟩),
   ("banana", ⟨89, 1.1, 0.3, 23⟩),
   ("apple", ⟨52, 0.3, 0.2, 14⟩),
   ("oats", ⟨389, 16.9, 6.9, 66⟩),
   ("yogurt", ⟨59, 10, 0.4, 3.6⟩),
   ("cheese", ⟨402, 25, 33, 1.3⟩),
   ("broccoli", ⟨34, 2.8, 0.4, 7⟩),
   ("potato", ⟨77, 2, 0.1, 17⟩),
   ("salmon", ⟨208, 25, 12, 0⟩),
   ("tuna", ⟨132, 28, 1.3, 0⟩)]

/-- JS `s.includes(t)`: substring containment. -/
def strContains (s t : String) : Bool :=
  (List.range (s.data.length + 1)).any (fun i => t.data.isPrefixOf (s.data.drop i))

/-- Exact reference-table lookup `nutritionDatabase[foodName]`. -/
def dbLookup (foodName : String) : Option Macros :=
  (nutritionDatabase.find? (fun kv => kv.1 == foodName)).map (fun kv => kv.2)

/-- Substring containment matching in either direction
(`keys.find(key => foodName.includes(key) || key.includes(foodName))`). -/
def dbPartial (foodName : String) : Option Macros :=
  (nutritionDatabase.find? (fun kv =>
    strContains foodName kv.1 || strContains kv.1 foodName)).map (fun kv => kv.2)

/-- V2 `generateFallbackResponse`: per non-blank line, lowercase + trim,
extract quantity/name via the regex, resolve per-100g macros (exact table
hit, else substring match, else the generic chicken default), scale by
qty/100 with the per-field rounding, confidence fixed to 0.6, unit fixed
to "g", totals summed as in the data-model invariant. -/
def generateFallbackResponseV2 (foodText : String) : NutritionData :=
  let lines := ((splitLines foodText.data).map (fun l => String.mk l)).filter
    (fun l => jsTrim l != "")
  let items := lines.map (fun line =>
    let foodLine := jsToLower (jsTrim line)
    let pq := parseQtyV2 foodLine
    let qty := pq.1
    let foodName := pq.2
    let nutrition :=
      match dbLookup foodName with
      | some m => m
      | none =>
        match dbPartial foodName with
        | some m => m
        | none => ⟨165, 31, 3.6, 0⟩
    let multiplier : ℚ := (qty : ℚ) / 100
    ({ label := jsTrim line, qty := (qty : ℚ), unit := "g", confidence := 0.6,
       macros :=
         { kcal := (round (nutrition.kcal * multiplier) : ℚ),
           protein := (round (nutrition.protein * multiplier * 10) : ℚ) / 10,
           fat := (round (nutrition.fat * multiplier * 10) : ℚ) / 10,
           carbs := (round (nutrition.carbs * multiplier * 10) : ℚ) / 10 } } : FoodItem))
  { items := items, totals := sumTotals items }

/-- The shared `serve` request-handler body of both edge-function
versions, parameterized by the pieces in which they differ: the AI
dispatch, the cost and confidence functions, the fallback estimator, and
the default provider tag.  Returns the HTTP response, the cache table
after the request and the usage records written. -/
def serveGen (callAI : String → String → Except String (NutritionData × Option ℕ))
    (cost : ℕ → String → ℤ) (score : NutritionData → ℚ)
    (fallback : String → NutritionData) (defProv : String)
    (req : NutritionRequest) (st : List CacheRow) (now : ℕ) : ServeResult :=
  if jsTrim req.foodText = "" then
    ⟨⟨400, none, some "Food text is required"⟩, st, []⟩
  else
    match cacheLookup st (normKey req.foodText) now with
    | some row =>
      ⟨⟨200, some row.nutrition_data, none⟩,
       st.map (fun r => if r.id = row.id then { r with hit_count := row.hit_count + 1 } else r),
       logsFor req.userId (req.aiProvider.getD defProv) 0 0 "cache_hit" none⟩
    | none =>
      match callAI req.foodText (req.aiProvider.getD defProv) with
      | .ok (d, tok) =>
        ⟨⟨200, some d, none⟩,
         cacheUpsert st
           { id := 0, food_query := normKey req.foodText,
             normalized_query := normKey req.foodText, nutrition_data := d,
             confidence_score := score d,
             ai_provider := req.aiProvider.getD defProv, hit_count := 1,
             expires_at := now + sevenDaysMs },
         logsFor req.userId (req.aiProvider.getD defProv) (tok.getD 0)
           (cost (tok.getD 0) (req.aiProvider.getD defProv)) "success" none⟩
      | .error msg =>
        ⟨⟨200, some (fallback req.foodText),
          some "AI service unavailable, showing estimated values"⟩,
         st,
         logsFor req.userId (req.aiProvider.getD defProv) 0 0 "ai_error" (some msg)⟩

/-- The multi-provider edge function (default provider `openai`). -/
def serveV1 (req : NutritionRequest) (st : List CacheRow) (env : ProviderEnv)
    (now : ℕ) : ServeResult :=
  serveGen (fun ft p => callAIServiceV1 ft p env) calculateCostV1
    calculateConfidenceScoreV1 generateFallbackResponseV1 "openai" req st now

/-- The gemini-only edge function (default provider `gemini`). -/
def serveV2 (req : NutritionRequest) (st : List CacheRow) (env : ProviderEnv)
    (now : ℕ) : ServeResult :=
  serveGen (fun ft p => callAIServiceV2 ft p env) calculateCostV2
    calculateConfidenceScoreV2 generateFallbackResponseV2 "gemini" req st now

/-- The user-visible slice of `user_usage_summary` consumed by
`checkUserQuota`. -/
structure UsageStats where
  usage_quota : ℕ
  current_usage : ℕ
deriving DecidableEq, Repr

/-- `getUserUsageStats`: the stored summary row, or the default
`usage_quota: 1000, current_usage: 0` when no row exists. -/
def getUserUsageStats (db : Option UsageStats) : UsageStats :=
  db.getD ⟨1000, 0⟩

/-- Outcome of a client-side `resolveNutrition` call. -/
inductive ResolveOutcome where
  | ok (d : NutritionData)
  | apiError (msg : String)
  | quotaError (msg : String)
deriving DecidableEq, Repr

/-- Result of a client-side `resolveNutrition` call: the outcome, the
cache and usage tables after the call, and whether the edge function was
actually invoked (no edge invocation means no cache lookup, no provider
call and no provider cost). -/
structure ResolveResult where
  outcome : ResolveOutcome
  cache : List CacheRow
  logs : List UsageRecord
  edgeInvoked : Bool
deriving DecidableEq, Repr

/-- The `NutritionQuotaExceededError` message thrown by `checkUserQuota`. -/
def quotaMessage (stats : UsageStats) : String :=
  "Monthly quota exceeded (" ++ toString stats.current_usage ++ "/" ++
    toString stats.usage_quota ++ "). Please upgrade your plan."

/-- Client `resolveNutrition` composed with the (multi-provider) edge
function: validates the input, checks the quota when a user id is
present (`checkUserQuota` throws when `current_usage >= usage_quota`,
before the edge function is invoked), then invokes the edge function and
maps its response.  The client validates `data.items` on the response
WRAPPER `{ data: {...}, error? }`, which has no top-level `items` field,
so the structure check fails with `Invalid response format: missing
items array` on every successful edge response. -/
def resolveNutrition (foodText : String) (userId : Option String)
    (aiProvider : Option String) (db : Option UsageStats) (st : List CacheRow)
    (env : ProviderEnv) (now : ℕ) : ResolveResult :=
  if jsTrim foodText = "" then
    ⟨.apiError "Food text is required", st, [], false⟩
  else if userId.isSome ∧
      (getUserUsageStats db).usage_quota ≤ (getUserUsageStats db).current_usage then
    ⟨.quotaError (quotaMessage (getUserUsageStats db)), st, [], false⟩
  else
    let out := serveV1 ⟨jsTrim foodText, userId, aiProvider⟩ st env now
    if out.response.status = 200 then
      match out.response.data with
      | some _ =>
        ⟨.apiError "Invalid response format: missing items array",
         out.cache, out.logs, true⟩
      | none => ⟨.apiError "No data returned from nutrition service", out.cache, out.logs, true⟩
    else
      ⟨.apiError (out.response.error.getD "Failed to resolve nutrition"),
       out.cache, out.logs, true⟩

/-- Case-insensitive match of a single letter (the `/i` flag of the
client patterns). -/
def ciChar (c target : Char) : Bool := c.toLower == target

/-- All ways the client number piece `(\d+(?:\.\d+)?)` can match a prefix
of `l`, as (value, consumed-length) pairs in greedy backtracking order
(longer digit runs first; for each, the fractional variant before the
integer-only one). -/
def numSplits (l : List Char) : List (ℚ × ℕ) :=
  (descPos (l.takeWhile jsDigit).length).flatMap (fun k =>
    let intPart : ℚ := (parseIntDigits (l.take k) : ℚ)
    let fracs :=
      match l.drop k with
      | '.' :: r2 =>
        (descPos (r2.takeWhile jsDigit).length).map (fun j =>
          (intPart + (parseIntDigits (r2.take j) : ℚ) / ((10 : ℚ) ^ j), k + 1 + j))
      | _ => []
    fracs ++ [(intPart, k)])

/-- Tail piece `\s+(.+)$` shared by the first three client patterns: at
least one whitespace character, then a non-empty dot-only remainder
running to the end of the input. -/
def spacePlusName (l : List Char) : Option (List Char) :=
  (descPos (l.takeWhile jsSpace).length).findSome? (fun m =>
    let r := l.drop m
    if r.isEmpty then none
    else if r.all jsDot then some r else none)

/-- Client pattern 1: `/^(\d+(?:\.\d+)?)\s*g\s+(.+)$/i`. -/
def clientRule1 (l : List Char) : Option (ℚ × List Char) :=
  (numSplits l).findSome? (fun vk =>
    (descFrom ((l.drop vk.2).takeWhile jsSpace).length).findSome? (fun m1 =>
      match (l.drop vk.2).drop m1 with
      | c :: r3 =>
        if ciChar c 'g' then (spacePlusName r3).map (fun name => (vk.1, name))
        else none
      | [] => none))

/-- Literal `grams?` (case-insensitive): consumes `gram` plus an optional
trailing `s`, the `s`-variant preferred.  Returns the possible remainders
in backtracking order. -/
def gramsLiteral (l : List Char) : List (List Char) :=
  match l with
  | g :: r :: a :: m :: rest =>
    if ciChar g 'g' && ciChar r 'r' && ciChar a 'a' && ciChar m 'm' then
      match rest with
      | s :: rest2 => if ciChar s 's' then [rest2, rest] else [rest]
      | [] => [rest]
    else []
  | _ => []

/-- Client pattern 2: `/^(\d+(?:\.\d+)?)\s*grams?\s+(.+)$/i`. -/
def clientRule2 (l : List Char) : Option (ℚ × List Char) :=
  (numSplits l).findSome? (fun vk =>
    (descFrom ((l.drop vk.2).takeWhile jsSpace).length).findSome? (fun m1 =>
      (gramsLiteral ((l.drop vk.2).drop m1)).findSome? (fun r =>
        (spacePlusName r).map (fun name => (vk.1, name)))))

/-- Client pattern 3: `/^(\d+(?:\.\d+)?)\s*oz\s+(.+)$/i`. -/
def clientRule3 (l : List Char) : Option (ℚ × List Char) :=
  (numSplits l).findSome? (fun vk =>
    (descFrom ((l.drop vk.2).takeWhile jsSpace).length).findSome? (fun m1 =>
      match (l.drop vk.2).drop m1 with
      | o :: z :: r3 =>
        if ciChar o 'o' && ciChar z 'z' then
          (spacePlusName r3).map (fun name => (vk.1, name))
        else none
      | _ => none))

/-- Client pattern 4: `/^(\d+(?:\.\d+)?)\s*(.+)$/i`. -/
def clientRule4 (l : List Char) : Option (ℚ × List Char) :=
  (numSplits l).findSome? (fun vk =>
    (descFrom ((l.drop vk.2).takeWhile jsSpace).length).findSome? (fun m1 =>
      let r := (l.drop vk.2).drop m1
      if r.isEmpty then none
      else if r.all jsDot then some (vk.1, r) else none))

/-- The client `parseQuantity` of `FoodInput`: tries the four anchored
patterns in order (first match wins); on a match the captured name is
trimmed and the quantity is multiplied by 28.35 whenever the WHOLE input
contains `oz` (as in the source, this applies regardless of which pattern
matched); absent any match, 100 g with the trimmed input as name. -/
def parseQuantityClient (input : String) : ℚ × String :=
  let l := input.data
  let firstMatch :=
    match clientRule1 l with
    | some r => some r
    | none =>
      match clientRule2 l with
      | some r => some r
      | none =>
        match clientRule3 l with
        | some r => some r
        | none => clientRule4 l
  match firstMatch with
  | some qn =>
    let q := if strContains (jsToLower input) "oz" then qn.1 * 28.35 else qn.1
    (q, jsTrim (String.mk qn.2))
  | none => (100, jsTrim input)

/-- A provider environment in which every provider call fails (no
credential configured for any provider). -/
def envAllFail : ProviderEnv :=
  ⟨none, none, none, false, false, false, "", "", "", none, none, none, none, none⟩

/-- Sample well-formed nutrition payload (single chicken-breast item). -/
def dOk : NutritionData :=
  ⟨[⟨"chicken breast", 150, "g", 0.95, ⟨165, 31, 3.6, 0⟩⟩], ⟨165, 31, 3.6, 0⟩, none⟩

/-- A provider payload whose `totals` do NOT equal the element-wise sum of
its items' macros (the provider is free to return such data and the
engine never checks). -/
def dMismatch : NutritionData :=
  ⟨[⟨"mystery stew", 100, "g", 0.9, ⟨100, 10, 5, 20⟩⟩], ⟨999, 0, 0, 0⟩, none⟩

/-- Environment in which the openai call succeeds and returns
`dMismatch` with 42 tokens. -/
def envOpenAIMismatch : ProviderEnv :=
  ⟨some "k", none, none, true, true, true, "", "", "", some dMismatch, none, none, some 42, none⟩

/-- Environment in which the openai call succeeds and returns `dOk`. -/
def envOpenAIOk : ProviderEnv :=
  ⟨some "k", none, none, true, true, true, "", "", "", some dOk, none, none, some 42, none⟩

/-- Environment in which the gemini call succeeds and returns `dOk`
(gemini success never carries a token count). -/
def envGeminiOk : ProviderEnv :=
  ⟨none, some "k", none, true, true, true, "", "", "", none, some dOk, none, none, none⟩

/-- Sample request used by concrete witnesses. -/
def reqChicken : NutritionRequest := ⟨"chicken", some "u1", some "openai"⟩

/-- A usage summary already at its quota. -/
def statsOver : UsageStats := ⟨1000, 1000⟩

/-- Two-item payload with distinct confidences (mean 0.6), all-positive
totals and a plausible kcal total: the claimed formula multiplies by 1.1
here, while the legacy multi-provider scorer does not. -/
def dC5 : NutritionData :=
  ⟨[⟨"a", 100, "g", 0.5, ⟨100, 10, 5, 20⟩⟩,
    ⟨"b", 100, "g", 0.7, ⟨100, 10, 5, 20⟩⟩],
   ⟨200, 20, 10, 40⟩, none⟩

/-- Sample unexpired cache row for the witnesses. -/
def rowOats : CacheRow := ⟨1, "oats", "oats", dOk, 0.95, "openai", 3, 1000⟩

theorem sumTotalsAux (items : List FoodItem) : ∀ acc : Macros,
    items.foldl
      (fun acc it =>
        ⟨acc.kcal + it.macros.kcal, acc.protein + it.macros.protein,
         acc.fat + it.macros.fat, acc.carbs + it.macros.carbs⟩) acc =
      ⟨acc.kcal + (items.map (fun it => it.macros.kcal)).sum,
       acc.protein + (items.map (fun it => it.macros.protein)).sum,
       acc.fat + (items.map (fun it => it.macros.fat)).sum,
       acc.carbs + (items.map (fun it => it.macros.carbs)).sum⟩ := by
  induction items with
  | nil => intro acc; simp
  | cons it rest ih =>
    intro acc
    simp only [List.foldl_cons, List.map_cons, List.sum_cons, ih]
    simp [Macros.mk.injEq]
    refine ⟨by ring, by ring, by ring, by ring⟩

theorem sumTotals_eq_elementwise (items : List FoodItem) :
    sumTotals items = elementwiseSum items := by
  unfold sumTotals elementwiseSum
  rw [sumTotalsAux]
  simp

/-- C2 (amended part): on the fallback path of either edge-function
version, the produced `totals` equal the element-wise sum of the items'
macros. -/
theorem claim_C2 (foodText : String) :
    (generateFallbackResponseV1 foodText).totals =
      elementwiseSum (generateFallbackResponseV1 foodText).items ∧
    (generateFallbackResponseV2 foodText).totals =
      elementwiseSum (generateFallbackResponseV2 foodText).items := by
  constructor
  · unfold generateFallbackResponseV1
    exact sumTotals_eq_elementwise _
  · unfold generateFallbackResponseV2
    exact sumTotals_eq_elementwise _

/-- C2 counterexample: on the provider-success path the engine returns the
provider's payload verbatim, so a provider payload with inconsistent
totals is returned (and cached) unchanged — the invariant is not enforced
there. -/
theorem claim_C2_counterexample :
    (serveV1 reqChicken [] envOpenAIMismatch 0).response.data = some dMismatch ∧
    dMismatch.totals ≠ elementwiseSum dMismatch.items := by
  refine ⟨rfl, ?_⟩
  unfold dMismatch elementwiseSum
  simp only [List.map_cons, List.map_nil, List.sum_cons, List.sum_nil]
  intro h
  have hk := congrArg Macros.kcal h
  norm_num at hk

theorem serveGen_ok (callAI : String → String → Except String (NutritionData × Option ℕ))
    (cost : ℕ → String → ℤ) (score : NutritionData → ℚ)
    (fallback : String → NutritionData) (defProv : String)
    (req : NutritionRequest) (st : List CacheRow) (now : ℕ)
    (h : jsTrim req.foodText ≠ "") :
    (serveGen callAI cost score fallback defProv req st now).response.status = 200 ∧
    (serveGen callAI cost score fallback defProv req st now).response.data.isSome = true := by
  unfold serveGen
  rw [if_neg h]
  cases hc : cacheLookup st (normKey req.foodText) now with
  | some row => simp
  | none =>
    cases hAI : callAI req.foodText (req.aiProvider.getD defProv) with
    | ok p => cases p with | mk d tok => simp
    | error msg => simp

/-- C1: for every request with non-empty (post-trim) food text, both
edge-function versions answer with a success-shaped response (status 200
carrying data) whatever the cache contents and whatever the provider
environment does — in particular every provider-level failure (missing
credential, HTTP error, parse error, unsupported provider tag) is
absorbed into the fallback path and never escapes to the caller. -/
theorem claim_C1 (req : NutritionRequest) (st : List CacheRow) (env : ProviderEnv)
    (now : ℕ) (h : jsTrim req.foodText ≠ "") :
    ((serveV1 req st env now).response.status = 200 ∧
      (serveV1 req st env now).response.data.isSome = true) ∧
    ((serveV2 req st env now).response.status = 200 ∧
      (serveV2 req st env now).response.data.isSome = true) := by
  exact ⟨serveGen_ok _ _ _ _ _ _ _ _ h, serveGen_ok _ _ _ _ _ _ _ _ h⟩

theorem claim_C1_witness :
    ((serveV1 ⟨"2 eggs", none, some "claude"⟩ [] envAllFail 0).response.status = 200 ∧
      (serveV1 ⟨"2 eggs", none, some "claude"⟩ [] envAllFail 0).response.data.isSome = true) ∧
    ((serveV2 ⟨"2 eggs", none, some "claude"⟩ [] envAllFail 0).response.status = 200 ∧
      (serveV2 ⟨"2 eggs", none, some "claude"⟩ [] envAllFail 0).response.data.isSome = true) :=
  claim_C1 ⟨"2 eggs", none, some "claude"⟩ [] envAllFail 0 (by decide)

/-- C6: both cost accountants bill `ceil(tokens / 1e6 * rate * 100)` —
never less than the exact pro-rata cost and less than one cent-unit above
it (always rounded up, never down) — and a provider key absent from the
rate table falls back to the default rate (0.5 for the multi-provider
table, 0.25 for the gemini-only table) instead of failing. -/
theorem claim_C6 (tokens : ℕ) (provider : String) :
    ((tokens : ℚ) / 1000000 * ((costTableV1 provider).getD 0.5) * 100 ≤
        (calculateCostV1 tokens provider : ℚ) ∧
      (calculateCostV1 tokens provider : ℚ) <
        (tokens : ℚ) / 1000000 * ((costTableV1 provider).getD 0.5) * 100 + 1) ∧
    ((tokens : ℚ) / 1000000 * ((costTableV2 provider).getD 0.25) * 100 ≤
        (calculateCostV2 tokens provider : ℚ) ∧
      (calculateCostV2 tokens provider : ℚ) <
        (tokens : ℚ) / 1000000 * ((costTableV2 provider).getD 0.25) * 100 + 1) ∧
    (provider ≠ "openai" → provider ≠ "gemini" → provider ≠ "claude" →
      calculateCostV1 tokens provider = calculateCostV1 tokens "openai" ∧
      calculateCostV2 tokens provider = calculateCostV2 tokens "gemini") := by
  refine ⟨⟨Int.le_ceil _, ?_⟩, ⟨Int.le_ceil _, ?_⟩, ?_⟩
  · exact Int.ceil_lt_add_one _
  · exact Int.ceil_lt_add_one _
  · intro h1 h2 h3
    constructor
    · unfold calculateCostV1 costTableV1
      rw [if_neg h1, if_neg h2, if_neg h3, if_pos rfl]
      rfl
    · unfold calculateCostV2 costTableV2
      rw [if_neg h2, if_pos rfl]
      rfl

theorem claim_C6_witness :
    ((700000 : ℚ) / 1000000 * ((costTableV1 "mistral").getD 0.5) * 100 ≤
        (calculateCostV1 700000 "mistral" : ℚ) ∧
      (calculateCostV1 700000 "mistral" : ℚ) <
        (700000 : ℚ) / 1000000 * ((costTableV1 "mistral").getD 0.5) * 100 + 1) ∧
    calculateCostV1 700000 "mistral" = calculateCostV1 700000 "openai" := by
  have h := claim_C6 700000 "mistral"
  exact ⟨h.1, (h.2.2 (by decide) (by decide) (by decide)).1⟩

theorem fallbackV2_fields (foodText : String) :
    ∀ it ∈ (generateFallbackResponseV2 foodText).items, it.unit = "g" ∧ it.confidence = 0.6 := by
  intro it hit
  unfold generateFallbackResponseV2 at hit
  simp only [List.mem_map] at hit
  obtain ⟨line, _, rfl⟩ := hit
  exact ⟨rfl, rfl⟩

/-- C3: whenever the provider call of the gemini-only edge function fails
(key missing, HTTP failure or parse failure all surface as
`Except.error`), the handler still answers 200 with the fallback
estimator's data, every fallback item carries confidence 0.6, the
response's error field is the estimation disclaimer, and — when a caller
identity is present — exactly one `ai_error` usage record with zero
tokens, zero cost and the captured message is written. -/
theorem claim_C3 (req : NutritionRequest) (st : List CacheRow) (env : ProviderEnv)
    (now : ℕ) (msg : String)
    (h1 : jsTrim req.foodText ≠ "")
    (h2 : cacheLookup st (normKey req.foodText) now = none)
    (h3 : callGemini req.foodText env = .error msg) :
    (serveV2 req st env now).response.status = 200 ∧
    (serveV2 req st env now).response.data =
      some (generateFallbackResponseV2 req.foodText) ∧
    (serveV2 req st env now).response.error =
      some "AI service unavailable, showing estimated values" ∧
    (∀ it ∈ (generateFallbackResponseV2 req.foodText).items, it.confidence = 0.6) ∧
    (∀ u, req.userId = some u →
      (serveV2 req st env now).logs =
        [mkUsage u (req.aiProvider.getD "gemini") 0 0 "ai_error" (some msg)]) := by
  have hout : serveV2 req st env now =
      ⟨⟨200, some (generateFallbackResponseV2 req.foodText),
        some "AI service unavailable, showing estimated values"⟩, st,
       logsFor req.userId (req.aiProvider.getD "gemini") 0 0 "ai_error" (some msg)⟩ := by
    unfold serveV2 serveGen callAIServiceV2
    rw [if_neg h1, h2]
    dsimp only
    rw [h3]
  refine ⟨by rw [hout], by rw [hout], by rw [hout],
    fun it hit => (fallbackV2_fields req.foodText it hit).2, ?_⟩
  intro u hu
  rw [hout, hu]
  rfl

theorem claim_C3_witness :
    (serveV2 ⟨"5oz chicken", some "u1", none⟩ [] envAllFail 0).response.status = 200 ∧
    (serveV2 ⟨"5oz chicken", some "u1", none⟩ [] envAllFail 0).response.data =
      some (generateFallbackResponseV2 "5oz chicken") ∧
    (serveV2 ⟨"5oz chicken", some "u1", none⟩ [] envAllFail 0).response.error =
      some "AI service unavailable, showing estimated values" ∧
    (∀ it ∈ (generateFallbackResponseV2 "5oz chicken").items, it.confidence = 0.6) ∧
    (∀ u, (some "u1" : Option String) = some u →
      (serveV2 ⟨"5oz chicken", some "u1", none⟩ [] envAllFail 0).logs =
        [mkUsage u "gemini" 0 0 "ai_error" (some "Gemini API key not configured")]) :=
  claim_C3 ⟨"5oz chicken", some "u1", none⟩ [] envAllFail 0
    "Gemini API key not configured" (by decide) rfl rfl

theorem geminiNoTokens (foodText : String) (env : ProviderEnv) (d : NutritionData)
    (tok : Option ℕ) (h : callGemini foodText env = .ok (d, tok)) : tok = none := by
  unfold callGemini at h
  rcases hK : env.geminiKey with _ | k
  · rw [hK] at h; simp at h
  · rw [hK] at h
    rcases hok : env.geminiOk
    · rw [hok] at h; simp at h
    · rw [hok] at h
      rw [if_neg (by decide)] at h
      rcases hJ : env.geminiJson with _ | d2
      · rw [hJ] at h; simp at h
      · rw [hJ] at h
        simp only [Except.ok.injEq, Prod.mk.injEq] at h
        exact h.2.symm

theorem costV1_zero_gemini : calculateCostV1 0 "gemini" = 0 := by
  unfold calculateCostV1 costTableV1
  norm_num

/-- C10: the gemini client never reports a token count, so every
successful V1 resolution routed through the `gemini` provider logs a
`success` usage record with zero tokens and zero cost. -/
theorem claim_C10 :
    (∀ (foodText : String) (env : ProviderEnv) (d : NutritionData) (tok : Option ℕ),
      callGemini foodText env = .ok (d, tok) → tok = none) ∧
    (∀ (req : NutritionRequest) (st : List CacheRow) (env : ProviderEnv) (now : ℕ)
      (u : String) (d : NutritionData) (tok : Option ℕ),
      req.aiProvider = some "gemini" → jsTrim req.foodText ≠ "" →
      cacheLookup st (normKey req.foodText) now = none →
      callAIServiceV1 req.foodText "gemini" env = .ok (d, tok) →
      req.userId = some u →
      (serveV1 req st env now).logs = [mkUsage u "gemini" 0 0 "success" none]) := by
  refine ⟨geminiNoTokens, ?_⟩
  intro req st env now u d tok hprov h1 h2 h3 hu
  have h3g : callGemini req.foodText env = .ok (d, tok) := by
    unfold callAIServiceV1 at h3
    rw [if_neg (by decide), if_pos rfl] at h3
    exact h3
  have htok : tok = none := geminiNoTokens _ _ _ _ h3g
  subst htok
  unfold serveV1 serveGen
  rw [if_neg h1, h2]
  dsimp only
  rw [hprov]
  dsimp only [Option.getD_some]
  rw [h3, hu]
  simp only [logsFor, Option.getD_some, Option.getD_none, costV1_zero_gemini]

theorem claim_C10_witness :
    (serveV1 ⟨"chicken", some "u1", some "gemini"⟩ [] envGeminiOk 0).logs =
      [mkUsage "u1" "gemini" 0 0 "success" none] :=
  claim_C10.2 ⟨"chicken", some "u1", some "gemini"⟩ [] envGeminiOk 0 "u1" dOk none
    rfl (by decide) rfl rfl rfl

theorem sum_of_all_eq (l : List ℚ) (c : ℚ) (h : ∀ x ∈ l, x = c) :
    l.sum = (l.length : ℚ) * c := by
  induction l with
  | nil => simp
  | cons a t ih =>
    have ha : a = c := h a (List.mem_cons_self a t)
    have ht := ih (fun x hx => h x (List.mem_cons_of_mem a hx))
    rw [List.sum_cons, ht, ha, List.length_cons]
    push_cast
    ring

theorem dedup_le_one_iff (c : ℚ) (cs : List ℚ) :
    (c :: cs).dedup.length ≤ 1 ↔ ∀ x ∈ cs, x = c := by
  rw [← List.card_toFinset, Finset.card_le_one]
  constructor
  · intro h x hx
    exact h x (by simp [List.mem_toFinset, hx]) c (by simp)
  · intro h a ha b hb
    have hmem : ∀ y ∈ (c :: cs).toFinset, y = c := by
      intro y hy
      rw [List.mem_toFinset, List.mem_cons] at hy
      rcases hy with rfl | hy
      · rfl
      · exact h y hy
    rw [hmem a ha, hmem b hb]

theorem round2_mono {x y : ℚ} (h : x ≤ y) : round2 x ≤ round2 y := by
  unfold round2
  have hr : round (x * 100) ≤ round (y * 100) := by
    rw [round_eq, round_eq]
    exact Int.floor_mono (by linarith)
  have hc : ((round (x * 100) : ℤ) : ℚ) ≤ ((round (y * 100) : ℤ) : ℚ) := by
    exact_mod_cast hr
  linarith

theorem round2_one : round2 1 = 1 := by
  unfold round2
  norm_num [round_eq, Int.floor_eq_iff]

theorem min_round2 (x : ℚ) : min 1 (round2 x) = round2 (min 1 x) := by
  rcases le_total x 1 with h | h
  · rw [min_eq_right h]
    exact min_eq_right (le_trans (round2_mono h) (le_of_eq round2_one))
  · rw [min_eq_left h, round2_one]
    refine min_eq_left ?_
    rw [← round2_one]
    exact round2_mono h

/-- The V2 (gemini-only) confidence scorer computes exactly the formula
of the claim — mean of item confidences, times 0.8 when kcal exceed
2000, times 1.1 when all three of protein/fat/carbs are strictly
positive, times 0.9 when all item confidences are identical and equal to
0.8, clamped at 1.0 and rounded to two decimals. -/
theorem scoreV2_eq_claim (d : NutritionData) :
    calculateConfidenceScoreV2 d = claimConfidenceScore d := by
  rcases hd : d.items with _ | ⟨it, rest⟩
  · unfold calculateConfidenceScoreV2 claimConfidenceScore
    rw [hd]
    rfl
  · unfold calculateConfidenceScoreV2 claimConfidenceScore
    rw [hd]
    simp only [List.isEmpty_cons, Bool.false_eq_true, if_false]
    have hlen : (((it :: rest).length : ℕ) : ℚ) ≠ 0 := by
      rw [List.length_cons]
      push_cast
      positivity
    have havg : (∀ j ∈ rest, j.confidence = it.confidence) →
        ((it :: rest).map (fun i => i.confidence)).sum / (((it :: rest).length : ℕ) : ℚ) =
          it.confidence := by
      intro hall
      have hs : ((it :: rest).map (fun i => i.confidence)).sum =
          ((((it :: rest).map (fun i => i.confidence)).length : ℕ) : ℚ) * it.confidence := by
        refine sum_of_all_eq _ _ ?_
        rw [List.map_cons]
        intro x hx
        rcases List.mem_cons.mp hx with rfl | hx
        · rfl
        · obtain ⟨j, hj, rfl⟩ := List.mem_map.mp hx
          exact hall j hj
      rw [hs, List.length_map]
      exact mul_div_cancel_left₀ _ hlen
    have hcond : (¬(1 < ((it :: rest).map (fun i => i.confidence)).dedup.length) ∧
          ((it :: rest).map (fun i => i.confidence)).sum / (((it :: rest).length : ℕ) : ℚ) = 0.8)
        ↔ ((∀ j ∈ rest, j.confidence = it.confidence) ∧ it.confidence = 0.8) := by
      constructor
      · rintro ⟨hv, ha⟩
        have hle : (it.confidence :: rest.map (fun i => i.confidence)).dedup.length ≤ 1 := by
          rw [← List.map_cons]
          exact Nat.not_lt.mp hv
        have hall0 := (dedup_le_one_iff _ _).mp hle
        have hall : ∀ j ∈ rest, j.confidence = it.confidence := by
          intro j hj
          exact hall0 _ (List.mem_map_of_mem _ hj)
        exact ⟨hall, by rw [← havg hall]; exact ha⟩
      · rintro ⟨hall, h08⟩
        refine ⟨?_, by rw [havg hall]; exact h08⟩
        apply Nat.not_lt.mpr
        rw [List.map_cons]
        refine (dedup_le_one_iff _ _).mpr ?_
        intro x hx
        obtain ⟨j, hj, rfl⟩ := List.mem_map.mp hx
        exact hall j hj
    simp only [hcond]
    split_ifs with h1 h2 h3 h4 h5 h6 h7 <;>
      (rw [min_round2]; exact congrArg round2 (congrArg (min 1) (by ring)))

theorem scoreV1_eq_plainMean (d : NutritionData) :
    calculateConfidenceScoreV1 d = plainMeanScore d := by
  rcases hd : d.items with _ | ⟨it, rest⟩
  · unfold calculateConfidenceScoreV1 plainMeanScore
    rw [hd]
    rfl
  · unfold calculateConfidenceScoreV1 plainMeanScore
    rw [hd]
    simp only [List.isEmpty_cons, Bool.false_eq_true, if_false]

/-- C5 (amended): the gemini-only engine's confidence score is computed
exactly as the claim's formula states — arithmetic mean, times 0.8 when
totals.kcal exceed 2000, times 1.1 when protein, fat and carbs are all
strictly positive, times 0.9 when every item's confidence is identical
and equals exactly 0.8, clamped to a maximum of 1.0 and rounded to 2
decimal places — while the legacy multi-provider version computes only
the arithmetic mean rounded to 2 decimals, with no quality multipliers
and no clamp. -/
theorem claim_C5 (d : NutritionData) :
    calculateConfidenceScoreV2 d = claimConfidenceScore d ∧
    calculateConfidenceScoreV1 d = plainMeanScore d :=
  ⟨scoreV2_eq_claim d, scoreV1_eq_plainMean d⟩

/-- C5 counterexample: the multi-provider handler's scorer (also cited by
the claim) does not implement the claimed formula — for two items of
confidence 0.5 and 0.7 with all-positive totals it returns the plain
rounded mean 0.6, whereas the claimed formula applies the 1.1 boost and
yields 0.66. -/
theorem claim_C5_counterexample :
    calculateConfidenceScoreV1 dC5 = 0.6 ∧
    claimConfidenceScore dC5 = 0.66 ∧
    calculateConfidenceScoreV1 dC5 ≠ claimConfidenceScore dC5 := by
  have h1 : calculateConfidenceScoreV1 dC5 = 0.6 := by
    unfold calculateConfidenceScoreV1 dC5
    simp only [List.isEmpty_cons, Bool.false_eq_true, if_false, List.map_cons,
      List.map_nil, List.sum_cons, List.sum_nil, List.length_cons, List.length_nil]
    norm_num [round2, round_eq, Int.floor_eq_iff]
  have h2 : claimConfidenceScore dC5 = 0.66 := by
    unfold claimConfidenceScore dC5
    dsimp only
    have hA : ¬((2000 : ℚ) < 200) := by norm_num
    have hB : (0 : ℚ) < 20 ∧ (0 : ℚ) < 10 ∧ (0 : ℚ) < 40 := by norm_num
    have hC : ¬((∀ j ∈ ([⟨"b", 100, "g", 0.7, ⟨100, 10, 5, 20⟩⟩] : List FoodItem),
        j.confidence = 0.5) ∧ (0.5 : ℚ) = 0.8) :=
      fun hc => absurd hc.2 (by norm_num)
    rw [if_neg hA, if_pos hB, if_neg hC]
    simp only [List.map_cons, List.map_nil, List.sum_cons, List.sum_nil,
      List.length_cons, List.length_nil]
    norm_num [round2, round_eq, Int.floor_eq_iff, min_def]
  refine ⟨h1, h2, ?_⟩
  rw [h1, h2]
  norm_num

/-- C7: (a) cache lookup returns an entry iff a row for the key exists
with `expires_at >= now` (an expired row behaves as a miss); (b) an
upsert replaces the whole row for the key — afterwards every row carrying
that key has exactly the upserted entry's fields; (c) on the
miss-then-success path the handler writes through exactly one upsert
whose row has `hit_count = 1` and `expires_at = now + 7 days`. -/
theorem claim_C7 :
    (∀ (st : List CacheRow) (key : String) (now : ℕ),
      (cacheLookup st key now).isSome ↔
        ∃ r ∈ st, r.food_query = key ∧ now ≤ r.expires_at) ∧
    (∀ (st : List CacheRow) (row : CacheRow),
      (∃ r ∈ cacheUpsert st row, r.food_query = row.food_query) ∧
      ∀ r ∈ cacheUpsert st row, r.food_query = row.food_query →
        r.nutrition_data = row.nutrition_data ∧
        r.normalized_query = row.normalized_query ∧
        r.confidence_score = row.confidence_score ∧
        r.ai_provider = row.ai_provider ∧
        r.hit_count = row.hit_count ∧ r.expires_at = row.expires_at) ∧
    (∀ (callAI : String → String → Except String (NutritionData × Option ℕ))
      (cost : ℕ → String → ℤ) (score : NutritionData → ℚ)
      (fallback : String → NutritionData) (defProv : String)
      (req : NutritionRequest) (st : List CacheRow) (now : ℕ)
      (d : NutritionData) (tok : Option ℕ),
      jsTrim req.foodText ≠ "" →
      cacheLookup st (normKey req.foodText) now = none →
      callAI req.foodText (req.aiProvider.getD defProv) = .ok (d, tok) →
      ∃ row, (serveGen callAI cost score fallback defProv req st now).cache =
          cacheUpsert st row ∧
        row.food_query = normKey req.foodText ∧ row.hit_count = 1 ∧
        row.expires_at = now + sevenDaysMs ∧ row.nutrition_data = d) := by
  refine ⟨?_, ?_, ?_⟩
  · intro st key now
    unfold cacheLookup
    rw [List.find?_isSome]
    constructor
    · rintro ⟨r, hr, hp⟩
      rw [Bool.and_eq_true, beq_iff_eq, decide_eq_true_eq] at hp
      exact ⟨r, hr, hp.1, hp.2⟩
    · rintro ⟨r, hr, hk, he⟩
      refine ⟨r, hr, ?_⟩
      rw [Bool.and_eq_true, beq_iff_eq, decide_eq_true_eq]
      exact ⟨hk, he⟩
  · intro st row
    unfold cacheUpsert
    by_cases hany : st.any (fun r => r.food_query == row.food_query) = true
    · rw [if_pos hany]
      constructor
      · obtain ⟨r0, hr0, hp⟩ := List.any_eq_true.mp hany
        exact ⟨{ row with id := r0.id },
          List.mem_map.mpr ⟨r0, hr0, by rw [if_pos hp]⟩, rfl⟩
      · intro r hr hkey
        obtain ⟨r0, hr0, rfl⟩ := List.mem_map.mp hr
        by_cases hp : (r0.food_query == row.food_query) = true
        · rw [if_pos hp]
          exact ⟨rfl, rfl, rfl, rfl, rfl, rfl⟩
        · rw [if_neg hp] at hkey
          exact absurd (beq_iff_eq.mpr hkey) hp
    · rw [if_neg hany]
      constructor
      · exact ⟨{ row with id := freshId st },
          List.mem_append.mpr (Or.inr (List.mem_singleton.mpr rfl)), rfl⟩
      · intro r hr hkey
        rcases List.mem_append.mp hr with hin | hin
        · refine absurd ?_ hany
          refine List.any_eq_true.mpr ⟨r, hin, ?_⟩
          exact beq_iff_eq.mpr hkey
        · rw [List.mem_singleton] at hin
          subst hin
          exact ⟨rfl, rfl, rfl, rfl, rfl, rfl⟩
  · intro callAI cost score fallback defProv req st now d tok h1 h2 h3
    refine ⟨⟨0, normKey req.foodText, normKey req.foodText, d, score d,
      req.aiProvider.getD defProv, 1, now + sevenDaysMs⟩, ?_, rfl, rfl, rfl, rfl⟩
    have hout : serveGen callAI cost score fallback defProv req st now =
        ⟨⟨200, some d, none⟩,
         cacheUpsert st
           ⟨0, normKey req.foodText, normKey req.foodText, d, score d,
            req.aiProvider.getD defProv, 1, now + sevenDaysMs⟩,
         logsFor req.userId (req.aiProvider.getD defProv) (tok.getD 0)
           (cost (tok.getD 0) (req.aiProvider.getD defProv)) "success" none⟩ := by
      unfold serveGen
      rw [if_neg h1, h2]
      dsimp only
      rw [h3]
    rw [hout]


theorem claim_C7_witness :
    ((cacheLookup [rowOats] "oats" 500).isSome ↔
      ∃ r ∈ [rowOats], r.food_query = "oats" ∧ 500 ≤ r.expires_at) ∧
    (∃ row, (serveV1 reqChicken [] envOpenAIOk 0).cache = cacheUpsert [] row ∧
      row.food_query = normKey reqChicken.foodText ∧ row.hit_count = 1 ∧
      row.expires_at = 0 + sevenDaysMs ∧ row.nutrition_data = dOk) :=
  ⟨claim_C7.1 [rowOats] "oats" 500,
   claim_C7.2.2 (fun ft p => callAIServiceV1 ft p envOpenAIOk) calculateCostV1
     calculateConfidenceScoreV1 generateFallbackResponseV1 "openai" reqChicken [] 0
     dOk (some 42) (by decide) rfl rfl⟩

theorem listGetMapAux {α β : Type _} (f : α → β) :
    ∀ (l : List α) (i : ℕ) (h : i < l.length) (h2 : i < (l.map f).length),
      (l.map f).get ⟨i, h2⟩ = f (l.get ⟨i, h⟩) := by
  intro l
  induction l with
  | nil => intro i h; exact absurd h (Nat.not_lt_zero i)
  | cons a t ih =>
    intro i h h2
    cases i with
    | zero => rfl
    | succ n =>
      exact ih n (Nat.lt_of_succ_lt_succ h)
        (Nat.lt_of_succ_lt_succ (by simpa using h2))

/-- C8: on a cache hit the handler's response is built from the cached
`nutrition_data`, the cache table keeps the same rows in the same
positions with the hit row's `hit_count` incremented by exactly one and
no other field (nor any other row) modified, and whatever usage is
logged is a single `cache_hit` record with zero tokens and zero cost. -/
theorem claim_C8 (callAI : String → String → Except String (NutritionData × Option ℕ))
    (cost : ℕ → String → ℤ) (score : NutritionData → ℚ)
    (fallback : String → NutritionData) (defProv : String)
    (req : NutritionRequest) (st : List CacheRow) (now : ℕ) (row : CacheRow)
    (h1 : jsTrim req.foodText ≠ "")
    (h2 : cacheLookup st (normKey req.foodText) now = some row)
    (hids : (st.map (fun r => r.id)).Nodup) :
    (serveGen callAI cost score fallback defProv req st now).response =
      ⟨200, some row.nutrition_data, none⟩ ∧
    (serveGen callAI cost score fallback defProv req st now).cache.length = st.length ∧
    (∀ (i : ℕ) (hi : i < st.length)
      (hi2 : i < (serveGen callAI cost score fallback defProv req st now).cache.length),
      ((st.get ⟨i, hi⟩).id ≠ row.id →
        (serveGen callAI cost score fallback defProv req st now).cache.get ⟨i, hi2⟩ =
          st.get ⟨i, hi⟩) ∧
      ((st.get ⟨i, hi⟩).id = row.id →
        (serveGen callAI cost score fallback defProv req st now).cache.get ⟨i, hi2⟩ =
          { st.get ⟨i, hi⟩ with hit_count := (st.get ⟨i, hi⟩).hit_count + 1 })) ∧
    (∀ rec ∈ (serveGen callAI cost score fallback defProv req st now).logs,
      rec.status = "cache_hit" ∧ rec.tokens_used = 0 ∧ rec.cost_cents = 0) ∧
    (∀ u, req.userId = some u →
      (serveGen callAI cost score fallback defProv req st now).logs =
        [mkUsage u (req.aiProvider.getD defProv) 0 0 "cache_hit" none]) := by
  have hrowmem : row ∈ st := by
    unfold cacheLookup at h2
    exact List.mem_of_find?_eq_some h2
  have hout : serveGen callAI cost score fallback defProv req st now =
      ⟨⟨200, some row.nutrition_data, none⟩,
       st.map (fun r => if r.id = row.id then { r with hit_count := row.hit_count + 1 } else r),
       logsFor req.userId (req.aiProvider.getD defProv) 0 0 "cache_hit" none⟩ := by
    unfold serveGen
    rw [if_neg h1, h2]
  have hcache : (serveGen callAI cost score fallback defProv req st now).cache =
      st.map (fun r => if r.id = row.id then { r with hit_count := row.hit_count + 1 } else r) := by
    rw [hout]
  refine ⟨by rw [hout], by rw [hcache, List.length_map], ?_, ?_, ?_⟩
  · intro i hi hi2
    have hi3 : i < (st.map (fun r =>
        if r.id = row.id then { r with hit_count := row.hit_count + 1 } else r)).length := by
      rw [List.length_map]
      exact hi
    have hget : (serveGen callAI cost score fallback defProv req st now).cache.get ⟨i, hi2⟩ =
        (if (st.get ⟨i, hi⟩).id = row.id then
          { st.get ⟨i, hi⟩ with hit_count := row.hit_count + 1 } else st.get ⟨i, hi⟩) := by
      rw [List.get_of_eq hcache ⟨i, hi2⟩]
      exact listGetMapAux _ st i hi _
    constructor
    · intro hne
      rw [hget, if_neg hne]
    · intro heq
      have hrow : st.get ⟨i, hi⟩ = row :=
        List.inj_on_of_nodup_map hids (List.get_mem st i hi) hrowmem heq
      rw [hget, if_pos heq, hrow]
  · intro rec hrec
    rw [hout] at hrec
    rcases hu : req.userId with _ | u
    · rw [hu] at hrec
      simp [logsFor] at hrec
    · rw [hu] at hrec
      simp only [logsFor, List.mem_singleton] at hrec
      subst hrec
      exact ⟨rfl, rfl, rfl⟩
  · intro u hu
    rw [hout, hu]
    rfl

theorem claim_C8_witness :
    (serveV1 ⟨"Oats", some "u1", none⟩ [rowOats] envAllFail 500).response =
      ⟨200, some rowOats.nutrition_data, none⟩ :=
  (claim_C8 (fun ft p => callAIServiceV1 ft p envAllFail) calculateCostV1
    calculateConfidenceScoreV1 generateFallbackResponseV1 "openai"
    ⟨"Oats", some "u1", none⟩ [rowOats] 500 rowOats (by decide) rfl
    (by decide)).1

/-- C4 counterexample: with usage at quota the client fails fast with
`QuotaExceededError` — but NO usage record at all is written for the
attempt (the claimed `quota_exceeded` record does not exist anywhere in
the code). -/
theorem claim_C4_counterexample :
    (resolveNutrition "chicken" (some "u1") none (some statsOver) [] envAllFail 0).outcome =
      .quotaError "Monthly quota exceeded (1000/1000). Please upgrade your plan." ∧
    (resolveNutrition "chicken" (some "u1") none (some statsOver) [] envAllFail 0).logs = [] ∧
    (resolveNutrition "chicken" (some "u1") none (some statsOver) [] envAllFail 0).edgeInvoked =
      false := by
  exact ⟨rfl, rfl, rfl⟩

/-- C4 (amended): when the caller's current-period usage has reached its
quota, resolution fails with `QuotaExceededError` before the edge
function is invoked — no cache lookup, no provider call, zero provider
cost — and no usage record is written for the attempt. -/
theorem claim_C4 (foodText u : String) (aiProvider : Option String)
    (db : Option UsageStats) (st : List CacheRow) (env : ProviderEnv) (now : ℕ)
    (h1 : jsTrim foodText ≠ "")
    (h2 : (getUserUsageStats db).usage_quota ≤ (getUserUsageStats db).current_usage) :
    (resolveNutrition foodText (some u) aiProvider db st env now).outcome =
      .quotaError (quotaMessage (getUserUsageStats db)) ∧
    (resolveNutrition foodText (some u) aiProvider db st env now).edgeInvoked = false ∧
    (resolveNutrition foodText (some u) aiProvider db st env now).cache = st ∧
    (resolveNutrition foodText (some u) aiProvider db st env now).logs = [] := by
  have hres : resolveNutrition foodText (some u) aiProvider db st env now =
      ⟨.quotaError (quotaMessage (getUserUsageStats db)), st, [], false⟩ := by
    unfold resolveNutrition
    rw [if_neg h1, if_pos (show (some u : Option String).isSome = true ∧ _ from ⟨rfl, h2⟩)]
  rw [hres]
  exact ⟨rfl, rfl, rfl, rfl⟩

theorem claim_C4_witness :
    (resolveNutrition "200g rice" (some "u7") none (some statsOver) [] envAllFail 3).outcome =
      .quotaError (quotaMessage (getUserUsageStats (some statsOver))) ∧
    (resolveNutrition "200g rice" (some "u7") none (some statsOver) [] envAllFail 3).edgeInvoked =
      false ∧
    (resolveNutrition "200g rice" (some "u7") none (some statsOver) [] envAllFail 3).cache = [] ∧
    (resolveNutrition "200g rice" (some "u7") none (some statsOver) [] envAllFail 3).logs = [] :=
  claim_C4 "200g rice" "u7" none (some statsOver) [] envAllFail 3 (by decide) (by decide)

theorem findSomeNone {α β : Type _} (f : α → Option β) :
    ∀ l : List α, (∀ x ∈ l, f x = none) → l.findSome? f = none := by
  intro l
  induction l with
  | nil => intro _; rfl
  | cons a t ih =>
    intro h
    rw [List.findSome?_cons, h a (List.mem_cons_self a t)]
    exact ih (fun x hx => h x (List.mem_cons_of_mem a hx))

theorem takeWhileNilOfNeg (p : Char → Bool) (l : List Char)
    (h : ∀ x ∈ l, p x = false) : l.takeWhile p = [] := by
  cases l with
  | nil => rfl
  | cons a t => simp [List.takeWhile_cons, h a (List.mem_cons_self a t)]

theorem matchQtyNone (l : List Char) (h : ∀ x ∈ l, jsDigit x = false) :
    matchQty l = none := by
  unfold matchQty
  apply findSomeNone
  intro i _
  have hsuf : ∀ x ∈ l.drop i, jsDigit x = false :=
    fun x hx => h x (List.mem_of_mem_drop hx)
  have h1 : alt1Match (l.drop i) = none := by
    unfold alt1Match
    rw [takeWhileNilOfNeg _ _ hsuf]
    rfl
  have h2 : alt2Match (l.drop i) = none := by
    unfold alt2Match
    apply findSomeNone
    intro k _
    dsimp only
    apply findSomeNone
    intro m1 _
    dsimp only
    rw [takeWhileNilOfNeg _ _
      (fun x hx => hsuf x (List.mem_of_mem_drop (List.mem_of_mem_drop hx)))]
    rfl
  dsimp only
  rw [h1, h2]

/-- C9 counterexample: for the line `5oz chicken` the V2 fallback
estimator extracts quantity 5 (the `oz` unit token is captured but
ignored; no ounce conversion happens), whereas the claim's rule set
would convert to grams at 28.35 g/oz. -/
theorem claim_C9_counterexample :
    parseQtyV2 (jsToLower (jsTrim "5oz chicken")) = (5, "chicken") ∧
    (generateFallbackResponseV2 "5oz chicken").items.map (fun it => it.qty) =
      [((5 : ℕ) : ℚ)] ∧
    ((5 : ℕ) : ℚ) ≠ 5 * 28.35 := by
  refine ⟨rfl, rfl, ?_⟩
  push_cast
  norm_num

/-- C9 (amended): the fallback estimator extracts quantities with a
single two-alternative regex — when a line contains no digit at all the
100 g default applies with the whole line as the food name, and every
fallback item's unit is the literal `g` (no grams/oz special-casing and
no 28.35 conversion in the estimator).  The ordered four-rule set with
ounce conversion at 28.35 g/oz is implemented by the client-side
`parseQuantity` helper instead. -/
theorem claim_C9 :
    (∀ s : String, s.data.all (fun c => !jsDigit c) = true → parseQtyV2 s = (100, s)) ∧
    (∀ foodText : String, ∀ it ∈ (generateFallbackResponseV2 foodText).items,
      it.unit = "g") ∧
    parseQuantityClient "5oz chicken" = (5 * 28.35, "chicken") := by
  refine ⟨?_, ?_, ?_⟩
  · intro s hall
    have h' : ∀ x ∈ s.data, jsDigit x = false := by
      intro x hx
      have hb := List.all_eq_true.mp hall x hx
      simpa using hb
    unfold parseQtyV2
    rw [matchQtyNone s.data h']
  · exact fun ft it hit => (fallbackV2_fields ft it hit).1
  · have hstep : parseQuantityClient "5oz chicken" =
        (((5 : ℕ) : ℚ) * 28.35, "chicken") := rfl
    rw [hstep]
    norm_num

theorem claim_C9_witness :
    parseQtyV2 "banana" = (100, "banana") ∧
    parseQuantityClient "5oz chicken" = (5 * 28.35, "chicken") :=
  ⟨claim_C9.1 "banana" (by decide), claim_C9.2.2⟩
